import Mathlib

/-
Shallow embedding of the per-connection WebSocket engine from
src/trio_websocket/__init__.py. Python machine state becomes explicit Lean
records; each async method is modelled by its synchronous prefix up to the
first suspension point, returning the updated state together with the
suspension point it parks on; a raised exception becomes an Except error.
-/

namespace TrioWebsocket

/-- Modelled from the spec: the external framing engine is treated as a black
box. This function embeds its RFC 6455 close-code enumeration: for a code the
engine defines, constructing the enum member succeeds and yields the canonical
name; for any other code construction fails (a ValueError in the source),
modelled here as none. -/
def wsframeprotoCloseReasonName (code : Int) : Option String :=
  if code = 1000 then some "NORMAL_CLOSURE"
  else if code = 1001 then some "GOING_AWAY"
  else if code = 1002 then some "PROTOCOL_ERROR"
  else if code = 1003 then some "UNSUPPORTED_DATA"
  else if code = 1005 then some "NO_STATUS_RCVD"
  else if code = 1006 then some "ABNORMAL_CLOSURE"
  else if code = 1007 then some "INVALID_FRAME_PAYLOAD_DATA"
  else if code = 1008 then some "POLICY_VIOLATION"
  else if code = 1009 then some "MESSAGE_TOO_BIG"
  else if code = 1010 then some "MANDATORY_EXT"
  else if code = 1011 then some "INTERNAL_ERROR"
  else if code = 1012 then some "SERVICE_RESTART"
  else if code = 1013 then some "TRY_AGAIN_LATER"
  else if code = 1015 then some "TLS_HANDSHAKE_FAILED"
  else none

/-- CloseReason: information about why a WebSocket was closed. Fields are the
three attributes set by the Python constructor. -/
structure CloseReason where
  code : Int
  name : String
  reason : Option String
deriving Repr, DecidableEq

/-- CloseReason.__init__ from the source: keep the code, derive the symbolic
name (canonical enum name when the framing engine defines the code, otherwise
by numeric range), keep the reason string. Total by construction: the only
fallible step in the source is the enum lookup, whose ValueError is caught. -/
def CloseReason.init (code : Int) (reason : Option String) : CloseReason :=
  { code := code
    name :=
      match wsframeprotoCloseReasonName code with
      | some n => n
      | none =>
        if 1000 ≤ code ∧ code ≤ 2999 then "RFC_RESERVED"
        else if 3000 ≤ code ∧ code ≤ 3999 then "IANA_RESERVED"
        else if 4000 ≤ code ∧ code ≤ 4999 then "PRIVATE_RESERVED"
        else "INVALID_CODE"
    reason := reason }

/-- The ConnectionClosed exception, carrying the close reason it was built
from (the source passes self.close_reason, which may in principle be None). -/
structure ConnectionClosed where
  reason : Option CloseReason
deriving Repr, DecidableEq

/-- A complete WebSocket message payload: binary (bytes as a list of byte
values) or text. -/
inductive Message
  | binary (data : List Nat)
  | text (s : String)
deriving Repr, DecidableEq

/-- Modelled from the spec: the external sans-I/O framing engine (a black-box
collaborator). It records the operations the connection invokes on it; the
client flag gives the role and the closed flag tells whether the engine has
already observed a close. -/
structure WSProto where
  client : Bool
  closed : Bool
  closeCalls : List (Int × Option String)
  pingCalls : List (List Nat)
  sendCalls : List Message
  acceptCalls : Nat
deriving Repr, DecidableEq

/-- Framing-engine close(): enqueue a close frame (recorded). -/
def WSProto.close (p : WSProto) (code : Int) (reason : Option String) : WSProto :=
  { p with closeCalls := p.closeCalls ++ [(code, reason)] }

/-- Framing-engine ping(): enqueue a ping frame (recorded). -/
def WSProto.ping (p : WSProto) (payload : List Nat) : WSProto :=
  { p with pingCalls := p.pingCalls ++ [payload] }

/-- Framing-engine send_data(): enqueue a data frame (recorded). -/
def WSProto.send_data (p : WSProto) (m : Message) : WSProto :=
  { p with sendCalls := p.sendCalls ++ [m] }

/-- Framing-engine accept() of a connection request (recorded). -/
def WSProto.accept (p : WSProto) : WSProto :=
  { p with acceptCalls := p.acceptCalls + 1 }

/-- The state of the underlying duplex byte stream: usable, broken at the TCP
level, or closed. -/
inductive StreamState
  | active
  | broken
  | closed
deriving Repr, DecidableEq

/-- stream.aclose(): closing an active or already-closed stream succeeds;
closing a broken stream raises BrokenStreamError (the error case). -/
def streamAclose : StreamState → Except Unit StreamState
  | .active => .ok .closed
  | .broken => .error ()
  | .closed => .ok .closed

/-- The per-connection mutable state of WebSocketConnection. close_creason is
the distinct attribute created by the misspelled assignment in the zero-byte
branch of the reader task; nothing else in the source reads or writes it. -/
structure WebSocketConnection where
  close_reason : Option CloseReason
  close_creason : Option CloseReason
  bytes_message : List Nat
  str_message : String
  data_pending : Bool
  data_sent : Bool
  pong_received : Bool
  reader_running : Bool
  writer_running : Bool
  closed_event : Bool
  stream : StreamState
  wsproto : WSProto
deriving Repr, DecidableEq

/-- WebSocketConnection.__init__: all signals cleared and both tasks marked
running, except that a client-role connection pre-raises data_pending because
it has handshake bytes ready to send. -/
def WebSocketConnection.init (stream : StreamState) (wsproto : WSProto) :
    WebSocketConnection :=
  { close_reason := none
    close_creason := none
    bytes_message := []
    str_message := ""
    data_pending := if wsproto.client then true else false
    data_sent := false
    pong_received := false
    reader_running := true
    writer_running := true
    closed_event := false
    stream := stream
    wsproto := wsproto }

/-- is_client property: the framing engine is in the client role. -/
def WebSocketConnection.is_client (st : WebSocketConnection) : Bool :=
  st.wsproto.client

/-- is_server property: the framing engine is not in the client role. -/
def WebSocketConnection.is_server (st : WebSocketConnection) : Bool :=
  !st.wsproto.client

/-- The suspension point an async API method parks on after its synchronous
prefix. -/
inductive Suspend
  | closedWait
  | dataSentWait
  | pongWait
  | messageGet
deriving Repr, DecidableEq

/-- close(code, reason): raise ConnectionClosed if a close reason is already
set; otherwise enqueue a close frame on the framing engine, set the close
reason from the local code and reason, raise data_pending, and suspend on the
closed signal. -/
def WebSocketConnection.close (st : WebSocketConnection) (code : Int)
    (reason : Option String) :
    Except ConnectionClosed (WebSocketConnection × Suspend) :=
  match st.close_reason with
  | some r => .error ⟨some r⟩
  | none =>
    .ok ({ st with
            wsproto := st.wsproto.close code reason
            close_reason := some (CloseReason.init code reason)
            data_pending := true },
         .closedWait)

/-- get_message(): raise ConnectionClosed if a close reason is already set;
otherwise suspend on the message channel. -/
def WebSocketConnection.get_message (st : WebSocketConnection) :
    Except ConnectionClosed (WebSocketConnection × Suspend) :=
  match st.close_reason with
  | some r => .error ⟨some r⟩
  | none => .ok (st, .messageGet)

/-- ping(payload): raise ConnectionClosed if a close reason is already set;
otherwise enqueue a ping, raise data_pending, and suspend on pong_received. -/
def WebSocketConnection.ping (st : WebSocketConnection) (payload : List Nat) :
    Except ConnectionClosed (WebSocketConnection × Suspend) :=
  match st.close_reason with
  | some r => .error ⟨some r⟩
  | none =>
    .ok ({ st with wsproto := st.wsproto.ping payload, data_pending := true },
         .pongWait)

/-- send_message(message): raise ConnectionClosed if a close reason is already
set; otherwise enqueue a data frame, raise data_pending, and suspend on
data_sent. -/
def WebSocketConnection.send_message (st : WebSocketConnection) (m : Message) :
    Except ConnectionClosed (WebSocketConnection × Suspend) :=
  match st.close_reason with
  | some r => .error ⟨some r⟩
  | none =>
    .ok ({ st with wsproto := st.wsproto.send_data m, data_pending := true },
         .dataSentWait)

/-- Inbound protocol events produced by the framing engine (the wsproto event
classes the handler recognizes). -/
inductive WSEvent
  | connectionRequested
  | connectionEstablished
  | connectionClosed (code : Int) (reason : Option String)
  | bytesReceived (data : List Nat) (message_finished : Bool)
  | textReceived (data : String) (message_finished : Bool)
  | pingReceived
  | pongReceived
deriving Repr, DecidableEq

/-- Observable effects of event dispatch on the message channel: a completed
message put on the channel, or the drain of the channel performed by
close_message_queue with the terminal ConnectionClosed sentinel. -/
inductive Output
  | message (m : Message)
  | drainQueue (e : ConnectionClosed)
deriving Repr, DecidableEq

/-- _handle_event: process one framing-engine event, returning the updated
connection state and the message-channel effects in order. -/
def WebSocketConnection.handle_event (st : WebSocketConnection)
    (event : WSEvent) : WebSocketConnection × List Output :=
  match event with
  | .connectionRequested =>
    ({ st with wsproto := st.wsproto.accept, data_pending := true }, [])
  | .connectionEstablished => (st, [])
  | .connectionClosed code reason =>
    let st1 :=
      if st.close_reason = none then
        { st with close_reason := some (CloseReason.init code reason) }
      else st
    ({ st1 with writer_running := false, data_pending := true },
     [.drainQueue ⟨st1.close_reason⟩])
  | .bytesReceived data fin =>
    let acc := st.bytes_message ++ data
    if fin then ({ st with bytes_message := [] }, [.message (.binary acc)])
    else ({ st with bytes_message := acc }, [])
  | .textReceived data fin =>
    let acc := st.str_message ++ data
    if fin then ({ st with str_message := "" }, [.message (.text acc)])
    else ({ st with str_message := acc }, [])
  | .pingReceived => ({ st with data_pending := true }, [])
  | .pongReceived => ({ st with pong_received := true }, [])

/-- Dispatch a list of events in order, collecting the channel effects. -/
def WebSocketConnection.handle_events (st : WebSocketConnection) :
    List WSEvent → WebSocketConnection × List Output
  | [] => (st, [])
  | e :: es =>
    let res := st.handle_event e
    let rest := res.1.handle_events es
    (rest.1, res.2 ++ rest.2)

/-- _close_stream: clear both liveness flags, raise data_pending, close the
stream tolerating BrokenStreamError as already dead, then set the closed
signal. -/
def WebSocketConnection.close_stream (st : WebSocketConnection) :
    WebSocketConnection :=
  let st1 := { st with
                reader_running := false
                writer_running := false
                data_pending := true }
  let st2 :=
    match streamAclose st1.stream with
    | .ok s => { st1 with stream := s }
    | .error _ => st1
  { st2 with closed_event := true }

/-- The zero-length-read branch of _reader_task, exactly as the source writes
it: when the framing engine has not observed a close, assign a 1006 abnormal
CloseReason to the attribute named close_creason (the misspelling in the
source), then run _close_stream. -/
def WebSocketConnection.reader_zero_bytes (st : WebSocketConnection) :
    WebSocketConnection :=
  let st1 :=
    if !st.wsproto.closed then
      { st with
          close_creason :=
            some (CloseReason.init 1006 (some "TCP connection aborted")) }
    else st
  st1.close_stream

/-- The code after the loop of _writer_task: the server invokes _close_stream;
the client returns without touching the transport. -/
def WebSocketConnection.writer_finish (st : WebSocketConnection) :
    WebSocketConnection :=
  if st.is_server then st.close_stream else st

/-- A Python value that may be passed as the use_ssl argument of
WebSocketClient.__init__. -/
inductive PyValue
  | pybool (b : Bool)
  | pyint (n : Int)
  | pystr (s : String)
  | sslContext (id : Nat)
deriving Repr, DecidableEq

/-- Python equality of a value against a bool literal: bools compare by value,
ints compare numerically with True as 1 and False as 0, strings never equal a
bool, and SSLContext has identity equality so never equals a bool. -/
def pyEqBool (v : PyValue) (b : Bool) : Bool :=
  match v with
  | .pybool c => c == b
  | .pyint n => n == (if b then 1 else 0)
  | .pystr _ => false
  | .sslContext _ => false

/-- Whether a value is a Python bool. -/
def PyValue.isPyBool : PyValue → Bool
  | .pybool _ => true
  | _ => false

/-- Whether a value is an ssl.SSLContext instance. -/
def PyValue.isSSLContext : PyValue → Bool
  | .sslContext _ => true
  | _ => false

/-- The TLS configuration WebSocketClient.__init__ stores in self.ssl. -/
inductive SSLChoice
  | defaultContext
  | noContext
  | given (id : Nat)
deriving Repr, DecidableEq

/-- The use_ssl dispatch of WebSocketClient.__init__: compare with == against
True, then against False, then test isinstance of SSLContext, else raise
TypeError (the error case). -/
def WebSocketClient.initSSL (use_ssl : PyValue) : Except Unit SSLChoice :=
  if pyEqBool use_ssl true then .ok .defaultContext
  else if pyEqBool use_ssl false then .ok .noContext
  else
    match use_ssl with
    | .sslContext id => .ok (.given id)
    | _ => .error ()

/-- The event sequence of one fragmented binary message: every fragment
carries message_finished false except the last. -/
def binFragEvents : List (List Nat) → List WSEvent
  | [] => []
  | [d] => [.bytesReceived d true]
  | d :: ds => .bytesReceived d false :: binFragEvents ds

/-- The event sequence of one fragmented text message: every fragment carries
message_finished false except the last. -/
def textFragEvents : List String → List WSEvent
  | [] => []
  | [d] => [.textReceived d true]
  | d :: ds => .textReceived d false :: textFragEvents ds

/-- A fresh server-role framing engine. -/
def sampleServerProto : WSProto :=
  { client := false
    closed := false
    closeCalls := []
    pingCalls := []
    sendCalls := []
    acceptCalls := 0 }

/-- A fresh client-role framing engine. -/
def sampleClientProto : WSProto :=
  { sampleServerProto with client := true }

/-- A connection whose close reason has been set. -/
def sampleClosedConn : WebSocketConnection :=
  { WebSocketConnection.init .active sampleServerProto with
      close_reason := some (CloseReason.init 1000 (some "bye")) }

/-- Folding list append from an accumulator is the accumulator followed by the
join of the fragments. -/
lemma foldl_append_eq_append_join {α : Type} (l : List (List α)) (a : List α) :
    l.foldl (fun x d => x ++ d) a = a ++ l.flatten := by
  induction l generalizing a with
  | nil => simp
  | cons d ds ih => simp [ih, List.append_assoc]

/-- The framing-engine close-code enumeration defines no code outside the
range 1000 to 1015. -/
lemma wsName_eq_none (code : Int) (h : code < 1000 ∨ 1015 < code) :
    wsframeprotoCloseReasonName code = none := by
  unfold wsframeprotoCloseReasonName
  repeat rw [if_neg (by omega)]

/-- Dispatching the events of one fragmented binary message accumulates the
fragments onto bytes_message, publishes once on the final fragment, and
resets the accumulator. -/
lemma handle_events_binFrags :
    ∀ (frags : List (List Nat)) (st : WebSocketConnection), frags ≠ [] →
      st.handle_events (binFragEvents frags) =
        ({ st with bytes_message := [] },
         [Output.message (Message.binary
            (frags.foldl (fun a d => a ++ d) st.bytes_message))])
  | [], _, h => absurd rfl h
  | [d], st, _ => by
    simp [binFragEvents, WebSocketConnection.handle_events,
      WebSocketConnection.handle_event]
  | d :: d2 :: ds, st, _ => by
    have ih := handle_events_binFrags (d2 :: ds)
      { st with bytes_message := st.bytes_message ++ d } (by simp)
    simp [binFragEvents, WebSocketConnection.handle_events,
      WebSocketConnection.handle_event, ih]

/-- Dispatching the events of one fragmented text message accumulates the
fragments onto str_message, publishes once on the final fragment, and resets
the accumulator. -/
lemma handle_events_textFrags :
    ∀ (frags : List String) (st : WebSocketConnection), frags ≠ [] →
      st.handle_events (textFragEvents frags) =
        ({ st with str_message := "" },
         [Output.message (Message.text
            (frags.foldl (fun a d => a ++ d) st.str_message))])
  | [], _, h => absurd rfl h
  | [d], st, _ => by
    simp [textFragEvents, WebSocketConnection.handle_events,
      WebSocketConnection.handle_event]
  | d :: d2 :: ds, st, _ => by
    have ih := handle_events_textFrags (d2 :: ds)
      { st with str_message := st.str_message ++ d } (by simp)
    simp [textFragEvents, WebSocketConnection.handle_events,
      WebSocketConnection.handle_event, ih]

/-- C1: the claim fails on the code as written. In the zero-length-read branch
with the framing engine not having observed a close, the 1006 abnormal
CloseReason is assigned to the misspelled attribute close_creason, so
close_reason stays unset and a subsequent API operation (get_message here)
does not raise ConnectionClosed with that reason. -/
theorem c1_zero_byte_read_sets_misspelled_attribute :
    ((WebSocketConnection.init .active sampleServerProto).reader_zero_bytes).close_reason = none ∧
    ((WebSocketConnection.init .active sampleServerProto).reader_zero_bytes).close_creason
      = some (CloseReason.init 1006 (some "TCP connection aborted")) ∧
    ((WebSocketConnection.init .active sampleServerProto).reader_zero_bytes).get_message
      = .ok ((WebSocketConnection.init .active sampleServerProto).reader_zero_bytes,
             .messageGet) := by
  refine ⟨rfl, rfl, rfl⟩

/-- C2: in any state with the close reason set, each of send_message,
get_message, ping and close raises ConnectionClosed carrying that same
reason; the error return carries no updated state, so the normal effect of
the operation does not happen. -/
theorem c2_api_operations_raise_when_closed (st : WebSocketConnection)
    (r : CloseReason) (h : st.close_reason = some r) (m : Message)
    (p : List Nat) (code : Int) (reason : Option String) :
    st.send_message m = .error ⟨some r⟩ ∧
    st.get_message = .error ⟨some r⟩ ∧
    st.ping p = .error ⟨some r⟩ ∧
    st.close code reason = .error ⟨some r⟩ := by
  simp [WebSocketConnection.send_message, WebSocketConnection.get_message,
    WebSocketConnection.ping, WebSocketConnection.close, h]

/-- Witness for C2 at a concrete closed connection. -/
theorem c2_witness :
    sampleClosedConn.close_reason = some (CloseReason.init 1000 (some "bye")) ∧
    (sampleClosedConn.send_message (.text "hi")
        = .error ⟨some (CloseReason.init 1000 (some "bye"))⟩ ∧
      sampleClosedConn.get_message
        = .error ⟨some (CloseReason.init 1000 (some "bye"))⟩ ∧
      sampleClosedConn.ping [0]
        = .error ⟨some (CloseReason.init 1000 (some "bye"))⟩ ∧
      sampleClosedConn.close 1001 none
        = .error ⟨some (CloseReason.init 1000 (some "bye"))⟩) :=
  ⟨rfl, c2_api_operations_raise_when_closed sampleClosedConn
    (CloseReason.init 1000 (some "bye")) rfl (.text "hi") [0] 1001 none⟩

/-- C4: the name of a CloseReason is the framing-engine canonical name when
the engine defines the code, and otherwise follows the numeric ranges
1000 to 2999, 3000 to 3999, 4000 to 4999, anything else; including the four
boundary examples. -/
theorem c4_close_code_naming (code : Int) (r : Option String) :
    (∀ n, wsframeprotoCloseReasonName code = some n →
        (CloseReason.init code r).name = n) ∧
    (wsframeprotoCloseReasonName code = none → 1000 ≤ code → code ≤ 2999 →
        (CloseReason.init code r).name = "RFC_RESERVED") ∧
    (3000 ≤ code → code ≤ 3999 →
        (CloseReason.init code r).name = "IANA_RESERVED") ∧
    (4000 ≤ code → code ≤ 4999 →
        (CloseReason.init code r).name = "PRIVATE_RESERVED") ∧
    (wsframeprotoCloseReasonName code = none → code < 1000 ∨ 4999 < code →
        (CloseReason.init code r).name = "INVALID_CODE") ∧
    (CloseReason.init 1000 r).name = "NORMAL_CLOSURE" ∧
    (CloseReason.init 3500 r).name = "IANA_RESERVED" ∧
    (CloseReason.init 4500 r).name = "PRIVATE_RESERVED" ∧
    (CloseReason.init 70000 r).name = "INVALID_CODE" := by
  have hname : wsframeprotoCloseReasonName code = none →
      (CloseReason.init code r).name =
        (if 1000 ≤ code ∧ code ≤ 2999 then "RFC_RESERVED"
         else if 3000 ≤ code ∧ code ≤ 3999 then "IANA_RESERVED"
         else if 4000 ≤ code ∧ code ≤ 4999 then "PRIVATE_RESERVED"
         else "INVALID_CODE") := by
    intro hn
    simp [CloseReason.init, hn]
  refine ⟨?_, ?_, ?_, ?_, ?_, ?_, ?_, ?_, ?_⟩
  · intro n hn
    simp [CloseReason.init, hn]
  · intro hn h1 h2
    rw [hname hn, if_pos ⟨h1, h2⟩]
  · intro h1 h2
    have hn := wsName_eq_none code (Or.inr (by omega))
    rw [hname hn, if_neg (by omega), if_pos ⟨h1, h2⟩]
  · intro h1 h2
    have hn := wsName_eq_none code (Or.inr (by omega))
    rw [hname hn, if_neg (by omega), if_neg (by omega), if_pos ⟨h1, h2⟩]
  · intro hn hrange
    rw [hname hn, if_neg (by omega), if_neg (by omega), if_neg (by omega)]
  · rfl
  · rfl
  · rfl
  · rfl

/-- Witness for C4 at concrete codes 1001 and 3500. -/
theorem c4_witness :
    wsframeprotoCloseReasonName 1001 = some "GOING_AWAY" ∧
    (CloseReason.init 1001 none).name = "GOING_AWAY" ∧
    (3000 : Int) ≤ 3500 ∧ (3500 : Int) ≤ 3999 ∧
    (CloseReason.init 3500 none).name = "IANA_RESERVED" :=
  ⟨by decide,
   (c4_close_code_naming 1001 none).1 "GOING_AWAY" (by decide),
   by decide, by decide,
   (c4_close_code_naming 3500 none).2.2.1 (by decide) (by decide)⟩

/-- C5: a first close on a connection with no close reason records a close
frame on the framing engine, sets the close reason from the local code and
reason, raises data_pending, and suspends on the closed signal; a second
close on the resulting state raises ConnectionClosed with that reason. -/
theorem c5_close_first_then_second (st : WebSocketConnection)
    (code code2 : Int) (reason reason2 : Option String)
    (h : st.close_reason = none) :
    ∃ st2, st.close code reason = .ok (st2, .closedWait) ∧
      st2.wsproto.closeCalls = st.wsproto.closeCalls ++ [(code, reason)] ∧
      st2.close_reason = some (CloseReason.init code reason) ∧
      st2.data_pending = true ∧
      st2.close code2 reason2
        = .error ⟨some (CloseReason.init code reason)⟩ := by
  have hc : st.close code reason =
      .ok ({ st with
              wsproto := st.wsproto.close code reason
              close_reason := some (CloseReason.init code reason)
              data_pending := true },
           .closedWait) := by
    unfold WebSocketConnection.close
    rw [h]
  exact ⟨_, hc, rfl, rfl, rfl, rfl⟩

/-- Witness for C5 at a fresh client connection. -/
theorem c5_witness :
    (WebSocketConnection.init .active sampleClientProto).close_reason = none ∧
    ∃ st2, (WebSocketConnection.init .active sampleClientProto).close 1000 (some "bye")
        = .ok (st2, .closedWait) ∧
      st2.wsproto.closeCalls
        = (WebSocketConnection.init .active sampleClientProto).wsproto.closeCalls
            ++ [(1000, some "bye")] ∧
      st2.close_reason = some (CloseReason.init 1000 (some "bye")) ∧
      st2.data_pending = true ∧
      st2.close 1000 none = .error ⟨some (CloseReason.init 1000 (some "bye"))⟩ :=
  ⟨rfl, c5_close_first_then_second
    (WebSocketConnection.init .active sampleClientProto) 1000 1000
    (some "bye") none rfl⟩

/-- C3: dispatching the inbound fragment events of one message (binary or
text), all unfinished except the final one, publishes to the message channel
exactly one message equal to the concatenation of the fragments in arrival
order, only on the finished fragment, and leaves the accumulator reset to
empty. -/
theorem c3_message_reassembly (st : WebSocketConnection)
    (bfrags : List (List Nat)) (tfrags : List String)
    (hb : st.bytes_message = []) (ht : st.str_message = "")
    (hbne : bfrags ≠ []) (htne : tfrags ≠ []) :
    (st.handle_events (binFragEvents bfrags)).2
        = [Output.message (Message.binary bfrags.flatten)] ∧
    (st.handle_events (binFragEvents bfrags)).1.bytes_message = [] ∧
    (st.handle_events (textFragEvents tfrags)).2
        = [Output.message (Message.text (String.join tfrags))] ∧
    (st.handle_events (textFragEvents tfrags)).1.str_message = "" := by
  have hbin := handle_events_binFrags bfrags st hbne
  have htext := handle_events_textFrags tfrags st htne
  rw [hb] at hbin
  rw [ht] at htext
  refine ⟨?_, ?_, ?_, ?_⟩
  · rw [hbin, foldl_append_eq_append_join]
    simp
  · rw [hbin]
  · rw [htext]
    rfl
  · rw [htext]

/-- Witness for C3 at a fresh server connection with concrete fragments. -/
theorem c3_witness :
    (WebSocketConnection.init .active sampleServerProto).bytes_message = [] ∧
    (WebSocketConnection.init .active sampleServerProto).str_message = "" ∧
    ((WebSocketConnection.init .active sampleServerProto).handle_events
        (binFragEvents [[1], [2, 3]])).2
      = [Output.message (Message.binary [1, 2, 3])] ∧
    ((WebSocketConnection.init .active sampleServerProto).handle_events
        (textFragEvents ["a", "bc"])).2
      = [Output.message (Message.text "abc")] :=
  have h := c3_message_reassembly
    (WebSocketConnection.init .active sampleServerProto)
    [[1], [2, 3]] ["a", "bc"] rfl rfl (by simp) (by simp)
  ⟨rfl, rfl, h.1, h.2.2.1⟩

/-- C6: dispatching a connection-closed event sets the close reason from the
event only when none was set (preserving an earlier reason), drains the
message channel with the terminal ConnectionClosed sentinel carrying the
resulting reason, clears writer_running, and raises data_pending. -/
theorem c6_connection_closed_event (st : WebSocketConnection) (code : Int)
    (reason : Option String) :
    ((st.handle_event (.connectionClosed code reason)).1.close_reason
        = if st.close_reason = none then some (CloseReason.init code reason)
          else st.close_reason) ∧
    ((st.handle_event (.connectionClosed code reason)).2
        = [Output.drainQueue ⟨if st.close_reason = none
            then some (CloseReason.init code reason)
            else st.close_reason⟩]) ∧
    (st.handle_event (.connectionClosed code reason)).1.writer_running
        = false ∧
    (st.handle_event (.connectionClosed code reason)).1.data_pending = true := by
  unfold WebSocketConnection.handle_event
  by_cases h : st.close_reason = none <;> simp [h]

/-- C7: after the writer loop, the transport-close procedure runs exactly when
the endpoint is the server: it clears both liveness flags, raises
data_pending, closes the stream treating a broken stream as already dead, and
raises the closed signal; a client writer_finish leaves the state untouched. -/
theorem c7_writer_teardown_by_role (st : WebSocketConnection) :
    (st.is_server = true →
      st.writer_finish = st.close_stream ∧
      st.close_stream.reader_running = false ∧
      st.close_stream.writer_running = false ∧
      st.close_stream.data_pending = true ∧
      st.close_stream.closed_event = true ∧
      (st.stream ≠ .broken → st.close_stream.stream = .closed) ∧
      (st.stream = .broken → st.close_stream.stream = .broken)) ∧
    (st.is_client = true → st.writer_finish = st) := by
  constructor
  · intro h
    refine ⟨?_, ?_, ?_, ?_, ?_, ?_, ?_⟩ <;>
      cases hs : st.stream <;>
        simp [WebSocketConnection.writer_finish, WebSocketConnection.close_stream,
          streamAclose, h, hs]
  · intro h
    have hs : st.is_server = false := by
      simp [WebSocketConnection.is_server]
      simpa [WebSocketConnection.is_client] using h
    simp [WebSocketConnection.writer_finish, hs]

/-- Witness for C7 at concrete server and client connections. -/
theorem c7_witness :
    (WebSocketConnection.init .active sampleServerProto).is_server = true ∧
    (WebSocketConnection.init .active sampleServerProto).writer_finish
      = (WebSocketConnection.init .active sampleServerProto).close_stream ∧
    (WebSocketConnection.init .active sampleServerProto).close_stream.closed_event
      = true ∧
    (WebSocketConnection.init .active sampleClientProto).is_client = true ∧
    (WebSocketConnection.init .active sampleClientProto).writer_finish
      = WebSocketConnection.init .active sampleClientProto :=
  have hs := (c7_writer_teardown_by_role
    (WebSocketConnection.init .active sampleServerProto)).1 rfl
  have hc := (c7_writer_teardown_by_role
    (WebSocketConnection.init .active sampleClientProto)).2 rfl
  ⟨rfl, hs.1, hs.2.2.2.2.1, rfl, hc⟩

/-- C8: a freshly constructed client-role connection has data_pending already
raised; a freshly constructed server-role connection does not. -/
theorem c8_initial_data_pending (stream : StreamState) (p : WSProto) :
    ((WebSocketConnection.init stream p).is_client = true →
      (WebSocketConnection.init stream p).data_pending = true) ∧
    ((WebSocketConnection.init stream p).is_server = true →
      (WebSocketConnection.init stream p).data_pending = false) := by
  cases hp : p.client <;>
    simp [WebSocketConnection.init, WebSocketConnection.is_client,
      WebSocketConnection.is_server, hp]

/-- Witness for C8 at concrete client and server connections. -/
theorem c8_witness :
    (WebSocketConnection.init .active sampleClientProto).is_client = true ∧
    (WebSocketConnection.init .active sampleClientProto).data_pending = true ∧
    (WebSocketConnection.init .active sampleServerProto).is_server = true ∧
    (WebSocketConnection.init .active sampleServerProto).data_pending = false :=
  ⟨rfl,
   (c8_initial_data_pending .active sampleClientProto).1 rfl,
   rfl,
   (c8_initial_data_pending .active sampleServerProto).2 rfl⟩

/-- C9 counterexample: the Python int 1 is neither a bool nor an SSLContext,
yet because the source compares with == and True equals 1 numerically, the
constructor installs a default TLS context instead of raising TypeError. -/
theorem c9_counterexample :
    (PyValue.pyint 1).isPyBool = false ∧
    (PyValue.pyint 1).isSSLContext = false ∧
    WebSocketClient.initSSL (PyValue.pyint 1) = .ok .defaultContext :=
  ⟨rfl, rfl, rfl⟩

/-- C9 amended: a use_ssl value that compares Python-equal to True installs a
default TLS context, one that compares equal to False installs no TLS
context, an SSLContext installs that exact object, and a value equal to
neither bool and not an SSLContext raises TypeError. -/
theorem c9_use_ssl_dispatch (v : PyValue) :
    (pyEqBool v true = true →
      WebSocketClient.initSSL v = .ok .defaultContext) ∧
    (pyEqBool v false = true →
      WebSocketClient.initSSL v = .ok .noContext) ∧
    (∀ id, v = .sslContext id →
      WebSocketClient.initSSL v = .ok (.given id)) ∧
    (pyEqBool v true = false → pyEqBool v false = false →
      v.isSSLContext = false →
      WebSocketClient.initSSL v = .error ()) := by
  refine ⟨?_, ?_, ?_, ?_⟩
  · intro h
    simp [WebSocketClient.initSSL, h]
  · intro h
    have h1 : pyEqBool v true = false := by
      cases v with
      | pybool c => cases c <;> simp_all [pyEqBool]
      | pyint n =>
        simp [pyEqBool] at h ⊢
        omega
      | pystr s => simp [pyEqBool]
      | sslContext id => simp [pyEqBool]
    simp [WebSocketClient.initSSL, h, h1]
  · intro id h
    subst h
    simp [WebSocketClient.initSSL, pyEqBool]
  · intro h1 h2 h3
    cases v <;>
      simp_all [WebSocketClient.initSSL, pyEqBool, PyValue.isSSLContext]

/-- Witness for C9 amended at a string value, which raises TypeError. -/
theorem c9_witness :
    pyEqBool (PyValue.pystr "x") true = false ∧
    pyEqBool (PyValue.pystr "x") false = false ∧
    (PyValue.pystr "x").isSSLContext = false ∧
    WebSocketClient.initSSL (PyValue.pystr "x") = .error () :=
  ⟨rfl, rfl, rfl,
   (c9_use_ssl_dispatch (PyValue.pystr "x")).2.2.2 rfl rfl rfl⟩

/-- C10: the CloseReason constructor is total (it returns a value for every
integer code and reason, raising nothing); the code and reason fields are the
constructor arguments unchanged, and the name is always assigned: either a
framing-engine canonical name or one of the four range names. -/
theorem c10_close_reason_total (code : Int) (reason : Option String) :
    (CloseReason.init code reason).code = code ∧
    (CloseReason.init code reason).reason = reason ∧
    ((∃ n, wsframeprotoCloseReasonName code = some n ∧
        (CloseReason.init code reason).name = n) ∨
      (CloseReason.init code reason).name = "RFC_RESERVED" ∨
      (CloseReason.init code reason).name = "IANA_RESERVED" ∨
      (CloseReason.init code reason).name = "PRIVATE_RESERVED" ∨
      (CloseReason.init code reason).name = "INVALID_CODE") := by
  refine ⟨rfl, rfl, ?_⟩
  cases hn : wsframeprotoCloseReasonName code with
  | some n =>
    refine Or.inl ⟨n, rfl, ?_⟩
    simp [CloseReason.init, hn]
  | none =>
    right
    simp only [CloseReason.init, hn]
    split_ifs <;> simp

end TrioWebsocket
